import Mathlib

/-!
Verification development for `src/python/songdb.py` (idjc music database
connectivity): a shallow embedding of the background database worker
(`DBAccessor`), its job queue, and the incremental view builders
(`TreePage._update_2`, `FlatPage._update_1` / `_update_2`), together with
theorems settling the specification claims about them.

Machine integers do not occur in the modelled code paths; Python integers
are embedded as `Nat` / `Int`, Python strings as `String` (or `List Char`
for character-level operations such as `rsplit`).
-/

set_option autoImplicit false

/-! ## Character and string helpers shared by several embedded functions -/

/-- Python `s.rsplit(sep, 1)` restricted to the case used by the source:
split at the LAST occurrence of `sep`, returning `none` when `sep` does not
occur (in which case Python returns a one-element list and the source's
2-tuple unpacking raises `ValueError`). -/
def rsplitOnce (sep : Char) : List Char → Option (List Char × List Char)
  | [] => none
  | c :: cs =>
    match rsplitOnce sep cs with
    | some (pre, post) => some (c :: pre, post)
    | none => if c = sep then some ([], cs) else none

/-- Python `str.strip()` as used implicitly by `int()`: drop leading and
trailing whitespace. -/
def pyStrip (cs : List Char) : List Char :=
  ((cs.dropWhile Char.isWhitespace).reverse.dropWhile Char.isWhitespace).reverse

/-- Value of a list of decimal digit characters. -/
def digitsToNat (cs : List Char) : Nat :=
  cs.foldl (fun a c => a * 10 + (c.toNat - 48)) 0

/-- Python 2 `int(string)`: optional surrounding whitespace, optional single
sign, then a nonempty run of decimal digits; anything else raises
`ValueError`, modelled as `none`. -/
def pythonInt (cs : List Char) : Option Int :=
  match pyStrip cs with
  | '-' :: ds =>
    if !ds.isEmpty && ds.all Char.isDigit then some (-(digitsToNat ds : Int)) else none
  | '+' :: ds =>
    if !ds.isEmpty && ds.all Char.isDigit then some ((digitsToNat ds : Int)) else none
  | ds =>
    if !ds.isEmpty && ds.all Char.isDigit then some ((digitsToNat ds : Int)) else none

/-- `DBAccessor.__init__`'s hostname/port parsing (songdb.py lines 72-77):
`hostname, port = hostnameport.rsplit(":", 1); port = int(port)`, with the
`except ValueError` fallback `hostname = hostnameport; port = 3306`. -/
def hostPortOfChars (cs : List Char) : List Char × Int :=
  match rsplitOnce ':' cs with
  | none => (cs, 3306)
  | some (host, portStr) =>
    match pythonInt portStr with
    | some p => (host, p)
    | none => (cs, 3306)

/-- String-level wrapper of `hostPortOfChars`. -/
def parseHostnamePort (s : String) : String × Int :=
  let r := hostPortOfChars s.toList
  (String.mk r.1, r.2)

/-- `row[6].rsplit("/", 1)` unpacked into `(path, filename)`; `none` models
the `ValueError` raised when the field contains no `/`. -/
def splitPathFile (s : String) : Option (String × String) :=
  match rsplitOnce '/' s.toList with
  | none => none
  | some (pre, post) => some (String.mk pre, String.mk post)

/-- The file path transform built by `PrefsControls._cb_bind`
(songdb.py lines 330-338): if either a strip count or a prefix string is
given, `transform(input_str) = prepend_str + input_str[del_qty:]`,
else the identity. -/
def makeTransform (del_qty : Nat) (prepend_str : String) : String → String :=
  if del_qty ≠ 0 ∨ prepend_str ≠ "" then
    fun input_str => prepend_str ++ input_str.drop del_qty
  else
    fun s => s

/-- `"(%s)" % found`: the found-count column title set by
`FlatPage._update_2` on exhaustion. -/
def foundTitle (n : Nat) : String :=
  "(" ++ toString n ++ ")"

/-! ## The background database worker: `DBAccessor`

`DBAccessor.run` (songdb.py lines 106-188) is embedded as a function from a
job list and an environment oracle (the outcomes of `cursor.execute`,
reconnection, and `handle.close` calls) to the list of observable events the
worker emits, in order.  The `keepalive` flag — set `False` once by
`close()` and never reset — is embedded as a flip point `K`: the n-th read
of the flag returns `true` iff `n < K`.
-/

/-- Outcome of one `self._cursor.execute(*query)` call.  `operr` is
`sql.OperationalError` (treated as a connection failure, with a defensive
close of cursor and handle); `othererr` covers the other caught exceptions
(`sql.Error` subclasses and `AttributeError`). -/
inductive ExecResult
  | ok (rows : Nat)
  | operr
  | othererr
deriving DecidableEq

/-- Outcome of one `sql.Connection(...)` reconnection attempt, including the
follow-up `set names utf8` statements. -/
inductive ConnResult
  | fail
  | okUtf8Fail
  | ok
deriving DecidableEq

/-- Environment behaviour for one iteration of the retry loop. -/
structure Attempt where
  exec : ExecResult
  conn : ConnResult
  /-- whether `self._handle.close()` inside `disconnect()` succeeds
  (`false` = it raises `sql.Error`). -/
  closeOk : Bool
deriving DecidableEq

/-- One entry of `self.jobs`: `(sql_query, handler, failhandler)`.  The
query is `none` for the sentinel "disconnect" marker; handlers are tracked
by the job's queue index, so only the presence of a failhandler matters. -/
structure Job where
  query : Option String
  hasFailhandler : Bool
deriving DecidableEq

/-- Worker-loop bookkeeping: how many `keepalive` reads have happened, the
oracle position, and whether a connection was ever established (before the
first successful connect `self._cursor` / `self._handle` are `None`, so
attribute access raises `AttributeError`). -/
structure WState where
  tick : Nat
  att : Nat
  everConnected : Bool
deriving DecidableEq

/-- The notification vocabulary of the worker. -/
inductive Msg
  | connecting
  | connFailed (n : Nat)
  | connected
  | connectedUtf8Failed
  | jobDropped
  | disconnected
  | connectionDropped
  | problemDropping
deriving DecidableEq

/-- Observable events of the worker loop, in program order. -/
inductive Event
  /-- `glib.idle_add(threadslock(self.notify), msg)`: the notification is
  marshalled onto the GTK main loop (the consumer's context). -/
  | idleAdd (m : Msg)
  /-- a `self._cursor.execute(*query)` call for the job at queue index `i`. -/
  | execQuery (i : Nat)
  /-- `handler(self, self.request, self._cursor, notify, rows)`: a direct,
  synchronous call made by the worker thread itself. -/
  | callHandler (i : Nat) (rows : Nat)
  /-- `failhandler(e, notify)`: a direct, synchronous call by the worker. -/
  | callFailhandler (i : Nat)
  /-- a `cursor.close()` attempt (defensive close or final teardown). -/
  | closeCursor
  /-- a `handle.close()` attempt (defensive close, `disconnect()`, or final
  teardown). -/
  | closeHandle
  /-- `time.sleep(0.5)` backoff after a failed reconnection. -/
  | sleep
deriving DecidableEq

/-- The two execution contexts of §5 of the spec. -/
inductive Ctx
  | worker
  | consumer
deriving DecidableEq

/-- The context an event runs on: `glib.idle_add` marshals onto the GTK
main loop (consumer context); everything else happens synchronously on the
worker thread. -/
def Event.ctx : Event → Ctx
  | Event.idleAdd _ => Ctx.consumer
  | _ => Ctx.worker

/-- How processing of one dequeued job ends: `normal` falls through to the
next loop iteration; `earlyReturn` is a `return` out of `run` (the
`keepalive` checks); `fatal` is an uncaught exception (the `TypeError` from
`execute(*None)`).  Both of the latter reach the `finally` teardown. -/
inductive JobExit
  | normal
  | earlyReturn
  | fatal
deriving DecidableEq

/-- Result of the `try` body (songdb.py lines 119-123) for one attempt:
either `rows = self._cursor.execute(*query)` succeeded, or an exception was
caught by `except (sql.Error, AttributeError)` (with `isOp` telling whether
it was an `OperationalError`, and `pre` the events emitted before the
raise), or the uncaught `TypeError` from unpacking `*None` escaped. -/
inductive TryResult
  | success (rows : Nat)
  | failure (isOp : Bool) (pre : List Event)
  | typeErr (evs : List Event)
deriving DecidableEq

/-- The `try` body for one attempt of the retry loop.  For the sentinel
(`query is None`): `self.disconnect()` runs first — before any connection it
raises `AttributeError` (caught by the outer `except`); otherwise it closes
the handle and notifies — and then `self._cursor.execute(*None)` raises an
uncaught `TypeError`.  For a real query, `self._cursor` is `None` before the
first connect, so the attribute access raises `AttributeError`; otherwise
the oracle decides the outcome. -/
def tryBody (i : Nat) (j : Job) (a : Attempt) (everConn : Bool) : TryResult :=
  match j.query with
  | none =>
    if everConn then
      TryResult.typeErr
        (if a.closeOk then [Event.closeHandle, Event.idleAdd Msg.connectionDropped]
         else [Event.closeHandle, Event.idleAdd Msg.problemDropping])
    else
      TryResult.failure false []
  | some _ =>
    if everConn then
      match a.exec with
      | ExecResult.ok rows => TryResult.success rows
      | ExecResult.operr => TryResult.failure true [Event.execQuery i]
      | ExecResult.othererr => TryResult.failure false [Event.execQuery i]
    else
      TryResult.failure false []

/-- The `except` clause up to `notify(_('Connecting'))` (songdb.py lines
124-144): a `keepalive` read, the defensive cursor/handle closes when the
error was an `OperationalError`, a second `keepalive` read, then the
"Connecting" notification.  Returns the emitted events, whether `run`
`return`ed early, and the updated state. -/
def errSetup (K : Nat) (isOp : Bool) (s : WState) : List Event × Bool × WState :=
  if s.tick < K then
    if s.tick + 1 < K then
      ((if isOp then [Event.closeCursor, Event.closeHandle] else []) ++
        [Event.idleAdd Msg.connecting],
       false, { s with tick := s.tick + 2 })
    else
      ((if isOp then [Event.closeCursor, Event.closeHandle] else []),
       true, { s with tick := s.tick + 2 })
  else
    ([], true, { s with tick := s.tick + 1 })

/-- Events of one reconnection attempt (songdb.py lines 146-167): on
`sql.Error` notify "Connection failed (try N)" and sleep; on success run the
utf-8 statements and notify accordingly. -/
def connEvents (c : ConnResult) (tryNum : Nat) : List Event :=
  match c with
  | ConnResult.fail => [Event.idleAdd (Msg.connFailed tryNum), Event.sleep]
  | ConnResult.okUtf8Fail => [Event.idleAdd Msg.connectedUtf8Failed]
  | ConnResult.ok => [Event.idleAdd Msg.connected]

/-- The retry loop `while trycount < 3` (songdb.py lines 117-178), by
remaining attempts (`fuel = 3 - trycount`).  At `fuel = 0` the loop's `else`
clause runs: call the failhandler if present, else notify "Job dropped". -/
def attemptLoop (K : Nat) (oracle : Nat → Attempt) (i : Nat) (j : Job) :
    Nat → WState → List Event × JobExit × WState
  | 0, s =>
    (if j.hasFailhandler then [Event.callFailhandler i] else [Event.idleAdd Msg.jobDropped],
     JobExit.normal, s)
  | n + 1, s =>
    let a := oracle s.att
    let s0 : WState := { s with att := s.att + 1 }
    match tryBody i j a s0.everConnected with
    | TryResult.typeErr evs => (evs, JobExit.fatal, s0)
    | TryResult.success rows =>
      if s0.tick < K then
        ([Event.execQuery i, Event.callHandler i rows], JobExit.normal,
         { s0 with tick := s0.tick + 1 })
      else
        ([Event.execQuery i], JobExit.earlyReturn, { s0 with tick := s0.tick + 1 })
    | TryResult.failure isOp pre =>
      let es := errSetup K isOp s0
      if es.2.1 then
        (pre ++ es.1, JobExit.earlyReturn, es.2.2)
      else
        let s2 := if a.conn = ConnResult.fail then es.2.2
                  else { es.2.2 with everConnected := true }
        let r := attemptLoop K oracle i j n s2
        (pre ++ es.1 ++ connEvents a.conn (3 - n) ++ r.1, r.2.1, r.2.2)

/-- Processing of one dequeued job: the retry loop entered with
`trycount = 0`. -/
def processJob (K : Nat) (oracle : Nat → Attempt) (i : Nat) (j : Job) (s : WState) :
    List Event × JobExit × WState :=
  attemptLoop K oracle i j 3 s

/-- The outer worker loop `while self.keepalive` (songdb.py lines 112-178):
one `keepalive` read at the loop head and one in `if self.keepalive and
self.jobs`, then the dequeued job is processed.  Once a read returns
`false` the loop can emit nothing further (the flag never returns to
`True`), so an empty queue contributes no events. -/
def runLoop (K : Nat) (oracle : Nat → Attempt) : List Job → Nat → WState → List Event × WState
  | [], _, s => ([], s)
  | j :: rest, i, s =>
    if s.tick < K then
      if s.tick + 1 < K then
        let s2 : WState := { s with tick := s.tick + 2 }
        let r := processJob K oracle i j s2
        match r.2.1 with
        | JobExit.normal =>
          let t := runLoop K oracle rest (i + 1) r.2.2
          (r.1 ++ t.1, t.2)
        | _ => (r.1, r.2.2)
      else ([], { s with tick := s.tick + 2 })
    else ([], { s with tick := s.tick + 1 })

/-- `DBAccessor.run` in full: the loop followed by the `finally` teardown
(songdb.py lines 179-188), which always closes cursor and handle
(swallowing errors) and notifies "Disconnected" — on normal exit, early
`return`, and uncaught exceptions alike. -/
def runWorker (K : Nat) (oracle : Nat → Attempt) (jobs : List Job) : List Event :=
  (runLoop K oracle jobs 0 ⟨0, 0, false⟩).1 ++
    [Event.closeCursor, Event.closeHandle, Event.idleAdd Msg.disconnected]

/-- `DBAccessor.purge_job_queue` (songdb.py lines 190-194): pop from the
left while more than `remain` jobs remain, consuming one semaphore signal
per popped job.  State is `(jobs, semaphore value)`. -/
def purge_job_queue : List Job → Nat → Nat → List Job × Nat
  | [], sem, _ => ([], sem)
  | j :: rest, sem, remain =>
    if rest.length + 1 > remain then purge_job_queue rest (sem - 1) remain
    else (j :: rest, sem)

/-! ## Event counting helpers -/

/-- Number of occurrences of an event in a trace. -/
def occ (e : Event) : List Event → Nat
  | [] => 0
  | x :: xs => (if x = e then 1 else 0) + occ e xs

/-- Number of `callHandler` (onSuccess) invocations in a trace. -/
def succCalls : List Event → Nat
  | [] => 0
  | Event.callHandler _ _ :: xs => 1 + succCalls xs
  | _ :: xs => succCalls xs

/-- Is the event a direct handler invocation (`onSuccess` or `onFailure`)? -/
def isHandlerCall : Event → Bool
  | Event.callHandler _ _ => true
  | Event.callFailhandler _ => true
  | _ => false

/-- Is the event a marshalled notification? -/
def isIdleAdd : Event → Bool
  | Event.idleAdd _ => true
  | _ => false

/-! ## Result rows and the incremental view builders

A fetched result row has nine fields (songdb.py lines 685-697 and 970-1011):
`artist, album, tracknumber, title, length, bitrate, field6, field7, disk`
where for Prokyon 3 `field6`/`field7` are `filename`/`path` and for Ampache
`field6` is the full `file` path and `field7` a padding string.  A cursor is
a list of fetch outcomes: a row, or an `sql.Error` raised by `fetchone`;
the empty list is exhaustion (`fetchone` returns `None`).
-/

/-- One result row as fetched from the cursor. -/
structure Row where
  artist : String
  album : String
  tracknumber : Int
  title : String
  length : Int
  bitrate : Int
  field6 : String
  field7 : String
  disk : Int
deriving DecidableEq

/-- Outcome of one `cursor.fetchone()` call (exhaustion = end of list). -/
inductive Fetch
  | row (r : Row)
  | err
deriving DecidableEq

/-- For Ampache rows, `row[6].rsplit("/", 1)` rewrites the row to
`row[0:6] + (filename, path) + row[8:]` (songdb.py lines 800-807); `none`
models the `ValueError` from a path with no `/`.  Prokyon rows pass through
unchanged. -/
def effectiveRow (amp : Bool) (r : Row) : Option Row :=
  if amp then
    match splitPathFile r.field6 with
    | none => none
    | some (path, filename) => some { r with field6 := filename, field7 := path }
  else some r

/-! ### FlatPage (`_update_1` / `_update_2`, songdb.py lines 1071-1122) -/

/-- One row of `FlatPage.list_store`:
`index, ARTIST, ALBUM, TRACKNUM, TITLE, DURATION, BITRATE, filename, path,
disk` (appends at songdb.py lines 1110-1114). -/
structure FlatRow where
  found : Nat
  artist : String
  album : String
  tracknumber : Int
  title : String
  length : Int
  bitrate : Int
  filename : String
  path : String
  disk : Int
deriving DecidableEq

/-- The display state touched by the flat builder: the `list_store`
contents, whether the tree view's model is attached to it
(`tree_view.set_model`), and the found-count column title. -/
structure FlatDisplay where
  store : List FlatRow
  attached : Bool
  title : String
deriving DecidableEq

/-- How a `FlatPage._update_2` invocation ends: `again` = `return True`
(reschedule), `halt` = `return False`, `raised` = an uncaught exception
escaped the idle callback. -/
inductive FlatRes
  | again
  | halt
  | raised
deriving DecidableEq

/-- Result of one `FlatPage._update_2` slice: its return disposition, the
remaining cursor, the namespace's `found` counter, and the display state. -/
structure FlatSliceOut where
  res : FlatRes
  cursor : List Fetch
  found : Nat
  display : FlatDisplay
deriving DecidableEq

/-- The store row built for one fetched row (appends at songdb.py lines
1110-1114): Ampache splits `row[6]` into `(path, fname)` — `none` models the
`ValueError` raised by the unpacking, which the source's `except IndexError`
does NOT catch — and appends
`(found,) + row[:6] + (fname, transform(path)) + row[8:]`; Prokyon appends
`(found,) + row[:7] + (transform(row[7]),) + row[8:]`. -/
def flatRowOf (amp : Bool) (tf : String → String) (idx : Nat) (r : Row) : Option FlatRow :=
  if amp then
    match splitPathFile r.field6 with
    | none => none
    | some (path, fname) =>
      some ⟨idx, r.artist, r.album, r.tracknumber, r.title, r.length, r.bitrate,
            fname, tf path, r.disk⟩
  else
    some ⟨idx, r.artist, r.album, r.tracknumber, r.title, r.length, r.bitrate,
          r.field6, tf r.field7, r.disk⟩

/-- The `for i in xrange(100)` loop of `FlatPage._update_2` (songdb.py lines
1092-1122), by remaining fuel.  Fuel exhausted: `namespace[1] = (found,);
return True`.  Each iteration checks `acc.keepalive`, fetches a row
(`except sql.Error: return False`), and on a live row increments `found`
and appends; at cursor exhaustion, when `found` is nonzero the column title
is set to the found count and the list store becomes the view's model. -/
def flatLoop (keep amp : Bool) (tf : String → String) :
    Nat → List Fetch → Nat → FlatDisplay → FlatSliceOut
  | 0, cur, found, d => ⟨FlatRes.again, cur, found, d⟩
  | n + 1, cur, found, d =>
    if keep = false then ⟨FlatRes.halt, cur, found, d⟩
    else
      match cur with
      | [] =>
        if found ≠ 0 then ⟨FlatRes.halt, [], found, ⟨d.store, true, foundTitle found⟩⟩
        else ⟨FlatRes.halt, [], found, d⟩
      | Fetch.err :: rest => ⟨FlatRes.halt, rest, found, d⟩
      | Fetch.row r :: rest =>
        match flatRowOf amp tf (found + 1) r with
        | none => ⟨FlatRes.raised, rest, found + 1, d⟩
        | some fr =>
          flatLoop keep amp tf n rest (found + 1) ⟨d.store ++ [fr], d.attached, d.title⟩

/-- `FlatPage._update_2` (songdb.py lines 1081-1122): read the namespace's
kill flag at entry — if set, return `False` immediately without touching
anything — else run the 100-row slice loop. -/
def flatUpdate2 (keep amp : Bool) (tf : String → String) (cur : List Fetch)
    (kill : Bool) (found : Nat) (d : FlatDisplay) : FlatSliceOut :=
  if kill then ⟨FlatRes.halt, cur, found, d⟩
  else flatLoop keep amp tf 100 cur found d

/-- `FlatPage._update_1` (songdb.py lines 1071-1079): unless killed, detach
the view's model, clear the list store, set `found = 0` and schedule
`_update_2`.  Returns (scheduled?, initial found, display). -/
def flatUpdate1 (kill : Bool) (d : FlatDisplay) : Bool × Nat × FlatDisplay :=
  if kill then (false, 0, d)
  else (true, 0, ⟨[], false, d.title⟩)

/-- The idle-callback driver: keep re-running `_update_2` while it returns
`True`.  Each `again` consumes exactly 100 cursor entries, so
`cursor.length + 1` rounds of fuel always suffice. -/
def flatDrive (keep amp : Bool) (tf : String → String) :
    Nat → List Fetch → Nat → FlatDisplay → FlatDisplay
  | 0, _, _, d => d
  | fuel + 1, cur, found, d =>
    match flatUpdate2 keep amp tf cur false found d with
    | ⟨FlatRes.again, cur2, found2, d2⟩ => flatDrive keep amp tf fuel cur2 found2 d2
    | o => o.display

/-- One full flat-builder run: `_update_1` (clear and detach), then the
`_update_2` slice chain until it stops rescheduling. -/
def flatRun (amp : Bool) (tf : String → String) (cur : List Fetch) (d : FlatDisplay) :
    FlatDisplay :=
  match flatUpdate1 false d with
  | (_, found0, d1) => flatDrive true amp tf (cur.length + 1) cur found0 d1

/-- Specification companion for the flat build: the list-store rows produced
from a row list, numbering from `f + 1`.  (An unsplittable Ampache row
aborts the build, so nothing follows it.) -/
def flatRowsOf (amp : Bool) (tf : String → String) : Nat → List Row → List FlatRow
  | _, [] => []
  | f, r :: rs =>
    match flatRowOf amp tf (f + 1) r with
    | some fr => fr :: flatRowsOf amp tf (f + 1) rs
    | none => []

/-! ### TreePage (`_update_2`, songdb.py lines 770-855)

`gtk.TreeStore` contents are embedded structurally: the by-artist store is a
list of artist groups, each an 8-column group row plus a list of album
groups, each an 8-column group row plus leaf rows; the by-album store is a
list of root album groups each holding exactly one artist sub-group (that is
how `_update_2` builds it; merging duplicates is `_update_3`'s job, outside
these claims).  `r_iter1`/`r_iter2`/`l_iter` always point at the most
recently appended group at their level, so appends through them are appends
to the last group. -/

/-- One 8-column row of `TreePage.artist_store`
(`depth, ARTIST-ALBUM-TITLE, TRACK, DURATION, BITRATE, filename, path,
disk`, songdb.py lines 622-625). -/
structure TRow where
  tag : Int
  name : String
  track : Int
  dur : Int
  bitrate : Int
  filename : String
  path : String
  disk : Int
deriving DecidableEq

/-- One 9-column row of `TreePage.album_store` (the extra column carries the
artist for sorting). -/
structure LRow where
  tag : Int
  name : String
  track : Int
  dur : Int
  bitrate : Int
  filename : String
  path : String
  disk : Int
  artist : String
deriving DecidableEq

/-- An album group node of the by-artist store with its leaf tracks. -/
structure AlbumGroup where
  row : TRow
  tracks : List TRow
deriving DecidableEq

/-- An artist group node of the by-artist store with its album groups. -/
structure ArtistGroup where
  row : TRow
  albums : List AlbumGroup
deriving DecidableEq

/-- A root album group of the by-album store: its root row, the single
artist sub-group row beneath it, and that sub-group's leaf tracks. -/
structure LGroup where
  albumRow : LRow
  artistRow : LRow
  tracks : List LRow
deriving DecidableEq

/-- The tree builder's sticky state: both stores plus the `self.artlower`,
`self.alblower`, `self.albartlower` keys carried across slices. -/
structure TreeState where
  artistStore : List ArtistGroup
  albumStore : List LGroup
  artlower : String
  alblower : String
  albartlower : String × String
deriving DecidableEq

/-- Rewrite the last element of a list (the group the stored iter points
at). -/
def modifyLast {α : Type} (f : α → α) : List α → List α
  | [] => []
  | [a] => [f a]
  | a :: rest => a :: modifyLast f rest

/-- `r_append(None, (-1, art, 0, 0, 0, "", "", 0))`: open a new artist
group at the root. -/
def openArtist (r : Row) (store : List ArtistGroup) : List ArtistGroup :=
  store ++ [⟨⟨-1, r.artist, 0, 0, 0, "", "", 0⟩, []⟩]

/-- `r_append(r_iter1, (-2, alb, 0, 0, 0, "", "", 0))`: open a new album
group under the current artist group. -/
def openAlbum (r : Row) (store : List ArtistGroup) : List ArtistGroup :=
  modifyLast (fun ag => { ag with albums := ag.albums ++ [⟨⟨-2, r.album, 0, 0, 0, "", "", 0⟩, []⟩] })
    store

/-- `r_append(r_iter2, (0, row[3], row[2], row[4], row[5], row[6], path,
row[8]))` with `path = transform(row[7])`: append a leaf track. -/
def appendTrack (tf : String → String) (r : Row) (store : List ArtistGroup) : List ArtistGroup :=
  let leaf : TRow := ⟨0, r.title, r.tracknumber, r.length, r.bitrate, r.field6, tf r.field7, r.disk⟩
  let addLeaf : AlbumGroup → AlbumGroup := fun al => { al with tracks := al.tracks ++ [leaf] }
  modifyLast (fun ag => { ag with albums := modifyLast addLeaf ag.albums }) store

/-- `l_append` of a fresh root album group and its artist sub-group
(songdb.py lines 838-841). -/
def openLGroup (r : Row) (store : List LGroup) : List LGroup :=
  store ++ [⟨⟨-1, r.album, 0, 0, 0, "", "", 0, r.artist⟩,
             ⟨-2, r.artist, 0, 0, 0, "", "", 0, ""⟩, []⟩]

/-- `l_append(l_iter, (0, row[3], row[2], row[4], row[5], row[6], path,
row[8], ""))` with `path = transform(row[7])`. -/
def appendLTrack (tf : String → String) (r : Row) (store : List LGroup) : List LGroup :=
  modifyLast (fun g => { g with tracks := g.tracks ++
    [⟨0, r.title, r.tracknumber, r.length, r.bitrate, r.field6, tf r.field7, r.disk, ""⟩] })
    store

/-- One iteration of the by-artist `while 1` loop (songdb.py lines 809-833):
the three sequential `if r_dep == …` blocks.  The final `Bool` is whether
the row was accepted (`break`). -/
def artistPass (tf : String → String) (r : Row) (st : TreeState) (rDep : Nat) :
    TreeState × Nat × Bool :=
  let p1 :=
    if rDep = 0 then
      ({ st with artlower := r.artist.toLower,
                 artistStore := openArtist r st.artistStore }, 1)
    else (st, rDep)
  let p2 :=
    if p1.2 = 1 then
      if p1.1.artlower = r.artist.toLower then
        ({ p1.1 with alblower := r.album.toLower,
                     artistStore := openAlbum r p1.1.artistStore }, 2)
      else (p1.1, 0)
    else p1
  if p2.2 = 2 then
    if p2.1.artlower = r.artist.toLower ∧ p2.1.alblower = r.album.toLower then
      ({ p2.1 with artistStore := appendTrack tf r p2.1.artistStore }, 2, true)
    else (p2.1, 1, false)
  else (p2.1, p2.2, false)

/-- The by-artist `while 1` loop: repeat `artistPass` until the row is
accepted.  Each failing pass strictly lowers the open depth, so three
passes always suffice. -/
def artistInsert (tf : String → String) (r : Row) : Nat → TreeState → Nat → TreeState × Nat
  | 0, st, rDep => (st, rDep)
  | n + 1, st, rDep =>
    match artistPass tf r st rDep with
    | (st2, rDep2, true) => (st2, rDep2)
    | (st2, rDep2, false) => artistInsert tf r n st2 rDep2

/-- One iteration of the by-album `while 1` loop (songdb.py lines
835-850). -/
def albumPass (tf : String → String) (r : Row) (st : TreeState) (lDep : Nat) :
    TreeState × Nat × Bool :=
  let p1 :=
    if lDep = 0 then
      ({ st with albartlower := (r.album.toLower, r.artist.toLower),
                 albumStore := openLGroup r st.albumStore }, 1)
    else (st, lDep)
  if p1.2 = 1 then
    if p1.1.albartlower = (r.album.toLower, r.artist.toLower) then
      ({ p1.1 with albumStore := appendLTrack tf r p1.1.albumStore }, 1, true)
    else (p1.1, 0, false)
  else (p1.1, p1.2, false)

/-- The by-album `while 1` loop; two passes always suffice. -/
def albumInsert (tf : String → String) (r : Row) : Nat → TreeState → Nat → TreeState × Nat
  | 0, st, lDep => (st, lDep)
  | n + 1, st, lDep =>
    match albumPass tf r st lDep with
    | (st2, lDep2, true) => (st2, lDep2)
    | (st2, lDep2, false) => albumInsert tf r n st2 lDep2

/-- How a `TreePage._update_2` invocation ends: `again` = `return True`,
`halt` = `return False` (kill flag or dead keepalive), `finishedView` =
cursor exhausted (the sort and the `_update_3` merge pass are scheduled,
outside these claims), `raised` = `fetchone` raised `sql.Error`, which
`_update_2` does not catch. -/
inductive TreeRes
  | again
  | halt
  | finishedView
  | raised
deriving DecidableEq

/-- Result of the tree slice's row loop. -/
structure TreeLoopOut where
  res : TreeRes
  cursor : List Fetch
  rDep : Nat
  lDep : Nat
  st : TreeState
deriving DecidableEq

/-- The `for each in xrange(do_max)` loop of `TreePage._update_2`
(songdb.py lines 782-851): per row, check `acc.keepalive`, fetch, handle
exhaustion, apply the Ampache split (`except ValueError: continue` skips
unsplittable rows), then run both insertion loops. -/
def treeLoop (keep amp : Bool) (tf : String → String) :
    Nat → List Fetch → TreeState → Nat → Nat → TreeLoopOut
  | 0, cur, st, rDep, lDep => ⟨TreeRes.again, cur, rDep, lDep, st⟩
  | n + 1, cur, st, rDep, lDep =>
    if keep = false then ⟨TreeRes.halt, cur, rDep, lDep, st⟩
    else
      match cur with
      | [] => ⟨TreeRes.finishedView, [], rDep, lDep, st⟩
      | Fetch.err :: rest => ⟨TreeRes.raised, rest, rDep, lDep, st⟩
      | Fetch.row r :: rest =>
        match effectiveRow amp r with
        | none => treeLoop keep amp tf n rest st rDep lDep
        | some er =>
          match artistInsert tf er 3 st rDep with
          | (st1, rDep2) =>
            match albumInsert tf er 2 st1 lDep with
            | (st2, lDep2) => treeLoop keep amp tf n rest st2 rDep2 lDep2

/-- Result of one `TreePage._update_2` slice including the namespace's
`done` row tally. -/
structure TreeSliceOut where
  res : TreeRes
  cursor : List Fetch
  rDep : Nat
  lDep : Nat
  done : Nat
  st : TreeState
deriving DecidableEq

/-- `TreePage._update_2` (songdb.py lines 770-855): read the namespace's
kill flag at entry — if set, return `False` without touching the stores —
else run the row loop; on fuel exhaustion `done += do_max` and the updated
namespace is written back with `return True`. -/
def treeUpdate2 (keep amp : Bool) (tf : String → String) (doMax : Nat) (cur : List Fetch)
    (kill : Bool) (rDep lDep done : Nat) (st : TreeState) : TreeSliceOut :=
  if kill then ⟨TreeRes.halt, cur, rDep, lDep, done, st⟩
  else
    let o := treeLoop keep amp tf doMax cur st rDep lDep
    match o.res with
    | TreeRes.again => ⟨TreeRes.again, o.cursor, o.rDep, o.lDep, done + doMax, o.st⟩
    | r => ⟨r, o.cursor, o.rDep, o.lDep, done, o.st⟩

/-! ## Concrete inputs used by witnesses and counterexamples -/

/-- An environment whose every execute succeeds with 7 rows. -/
def okOracle : Nat → Attempt := fun _ => ⟨ExecResult.ok 7, ConnResult.ok, true⟩

/-- An environment whose every execute fails with `sql.OperationalError`
and whose every reconnection attempt also fails. -/
def opOracle : Nat → Attempt := fun _ => ⟨ExecResult.operr, ConnResult.fail, true⟩

/-- The identity path transform (`transform = lambda s: s`). -/
def tfId : String → String := fun s => s

/-- An Ampache row whose `file` field contains no `/`. -/
def badRow : Row := ⟨"Artist", "Album", 1, "Title", 100, 128, "noslashfile", "", 0⟩

/-- An Ampache row whose `file` field splits normally. -/
def goodRow : Row := ⟨"Artist", "Album", 2, "Title2", 90, 128, "dir/file.mp3", "", 0⟩

/-- An empty flat display (fresh view, title as built: `"(0)"`). -/
def emptyFlatDisplay : FlatDisplay := ⟨[], false, foundTitle 0⟩

/-- A flat display left by a previous one-row search. -/
def prevFlatRow : FlatRow := ⟨1, "A", "B", 1, "T", 1, 1, "f", "p", 0⟩

/-- The display state before a new search: one row, model attached. -/
def prevFlatDisplay : FlatDisplay := ⟨[prevFlatRow], true, foundTitle 1⟩

/-! ## Trace-counting lemmas -/

theorem occ_append (e : Event) (xs ys : List Event) :
    occ e (xs ++ ys) = occ e xs + occ e ys := by
  induction xs with
  | nil => simp [occ]
  | cons x xs ih => simp [occ, ih]; omega

theorem succCalls_append (xs ys : List Event) :
    succCalls (xs ++ ys) = succCalls xs + succCalls ys := by
  induction xs with
  | nil => simp [succCalls]
  | cons x xs ih => cases x <;> simp [succCalls, ih] <;> omega

theorem connEvents_occ_exec (c : ConnResult) (m i : Nat) :
    occ (Event.execQuery i) (connEvents c m) = 0 := by
  cases c <;> simp [connEvents, occ]

theorem connEvents_occ_failcb (c : ConnResult) (m i : Nat) :
    occ (Event.callFailhandler i) (connEvents c m) = 0 := by
  cases c <;> simp [connEvents, occ]

theorem connEvents_occ_dropped (c : ConnResult) (m : Nat) :
    occ (Event.idleAdd Msg.jobDropped) (connEvents c m) = 0 := by
  cases c <;> simp [connEvents, occ]

theorem connEvents_occ_disc (c : ConnResult) (m : Nat) :
    occ (Event.idleAdd Msg.disconnected) (connEvents c m) = 0 := by
  cases c <;> simp [connEvents, occ]

theorem connEvents_succCalls (c : ConnResult) (m : Nat) :
    succCalls (connEvents c m) = 0 := by
  cases c <;> simp [connEvents, succCalls]

theorem errSetup_occ_disc (K : Nat) (b : Bool) (s : WState) :
    occ (Event.idleAdd Msg.disconnected) (errSetup K b s).1 = 0 := by
  unfold errSetup
  split
  · split
    · cases b <;> simp [occ]
    · cases b <;> simp [occ]
  · simp [occ]

/-- No branch of the retry loop ever emits the "Disconnected" notification:
it belongs to the `finally` teardown alone. -/
theorem attemptLoop_occ_disc (K : Nat) (oracle : Nat → Attempt) (i : Nat)
    (q : Option String) (fh : Bool) :
    ∀ (n : Nat) (s : WState),
      occ (Event.idleAdd Msg.disconnected) (attemptLoop K oracle i ⟨q, fh⟩ n s).1 = 0 := by
  intro n
  induction n with
  | zero =>
    intro s
    cases fh <;> simp [attemptLoop, occ]
  | succ n ih =>
    intro s
    cases q with
    | none =>
      cases hec : s.everConnected with
      | true =>
        cases hco : (oracle s.att).closeOk <;>
          simp [attemptLoop, tryBody, hec, hco, occ]
      | false =>
        simp [attemptLoop, tryBody, hec]
        split
        · simp [occ, occ_append, errSetup_occ_disc]
        · simp [occ, occ_append, errSetup_occ_disc, connEvents_occ_disc, ih]
    | some qq =>
      cases hec : s.everConnected with
      | false =>
        simp [attemptLoop, tryBody, hec]
        split
        · simp [occ, occ_append, errSetup_occ_disc]
        · simp [occ, occ_append, errSetup_occ_disc, connEvents_occ_disc, ih]
      | true =>
        cases hex : (oracle s.att).exec with
        | ok rows =>
          simp [attemptLoop, tryBody, hec, hex]
          split <;> simp [occ]
        | operr =>
          simp [attemptLoop, tryBody, hec, hex]
          split
          · simp [occ, occ_append, errSetup_occ_disc]
          · simp [occ, occ_append, errSetup_occ_disc, connEvents_occ_disc, ih]
        | othererr =>
          simp [attemptLoop, tryBody, hec, hex]
          split
          · simp [occ, occ_append, errSetup_occ_disc]
          · simp [occ, occ_append, errSetup_occ_disc, connEvents_occ_disc, ih]

/-- The worker loop proper never emits "Disconnected". -/
theorem runLoop_occ_disc (K : Nat) (oracle : Nat → Attempt) :
    ∀ (jobs : List Job) (i : Nat) (s : WState),
      occ (Event.idleAdd Msg.disconnected) (runLoop K oracle jobs i s).1 = 0 := by
  intro jobs
  induction jobs with
  | nil => intro i s; simp [runLoop, occ]
  | cons j rest ih =>
    intro i s
    rcases j with ⟨q, fh⟩
    simp only [runLoop]
    split
    · split
      · split <;>
          simp [processJob, occ_append, attemptLoop_occ_disc K oracle i q fh, ih, occ]
      · simp [occ]
    · simp [occ]

/-! ## Claim theorems -/

/-- Claim C3: once `close()` stops the worker and no further requests
arrive, the run always ends with the teardown — cursor close, handle close,
then a final, unique "Disconnected" notification — and nothing (in
particular no `onSuccess`/`onFailure` invocation) follows it.  `K` is the
point at which reads of `keepalive` start returning `False`; the theorem
holds for every flip point, job queue, and environment, covering abnormal
exits as well. -/
theorem close_emits_single_disconnected (K : Nat) (oracle : Nat → Attempt) (jobs : List Job) :
    ∃ t, runWorker K oracle jobs =
        t ++ [Event.closeCursor, Event.closeHandle, Event.idleAdd Msg.disconnected] ∧
      occ (Event.idleAdd Msg.disconnected) t = 0 ∧
      occ (Event.idleAdd Msg.disconnected) (runWorker K oracle jobs) = 1 := by
  refine ⟨(runLoop K oracle jobs 0 ⟨0, 0, false⟩).1, rfl, runLoop_occ_disc K oracle jobs 0 _, ?_⟩
  simp [runWorker, occ_append, runLoop_occ_disc, occ]

/-- Claim C7: a builder slice whose namespace kill flag was set before it
ran returns `False` ("do not reschedule") straight from its entry check and
leaves everything — the tree stores, the list store, the cursor, and the
rest of the namespace — untouched: this holds for `TreePage._update_2` and
`FlatPage._update_2` alike. -/
theorem cancelled_slice_noop (keep amp : Bool) (tf : String → String) (doMax : Nat)
    (cur : List Fetch) (rDep lDep done : Nat) (st : TreeState)
    (fcur : List Fetch) (found : Nat) (fd : FlatDisplay) :
    treeUpdate2 keep amp tf doMax cur true rDep lDep done st =
        ⟨TreeRes.halt, cur, rDep, lDep, done, st⟩ ∧
    flatUpdate2 keep amp tf fcur true found fd = ⟨FlatRes.halt, fcur, found, fd⟩ :=
  ⟨rfl, rfl⟩

/-- Claim C8, counterexample: the transform built from `strip = 2` and
prefix `"X/"` does NOT map `"ab/c/song.mp3"` to `"X/c/song.mp3"`: stripping
two characters removes only `"ab"`, keeping the leading slash. -/
theorem path_transform_counterexample :
    makeTransform 2 ("X/") ("ab/c/song.mp3") ≠ "X/c/song.mp3" := by decide

/-- Claim C8 (amended): the transform built from `strip = 2` and prefix
`"X/"` maps `"ab/c/song.mp3"` to `"X//c/song.mp3"` (a double slash: the
strip removes `"ab"` only, leaving `"/c/song.mp3"` to be prefixed). -/
theorem path_transform_strip2 :
    makeTransform 2 ("X/") ("ab/c/song.mp3") = "X//c/song.mp3" := by decide

/-- Claim C9 (code bug): a fetched row whose single path field contains no
`/` is skipped by the tree builder (`except ValueError: continue`) with the
stores untouched and the loop moving to the next row; but the flat builder
guards the same unpacking with `except IndexError`, which does not match
the `ValueError` actually raised, so its slice raises instead of skipping:
on the concrete cursor `[badRow, goodRow]` the flat slice aborts with the
row neither appended nor skipped-and-continued. -/
theorem unsplittable_row_tree_skips_flat_raises :
    (∀ (n : Nat) (rest : List Fetch) (st : TreeState) (rDep lDep : Nat),
        treeLoop true true tfId (n + 1) (Fetch.row badRow :: rest) st rDep lDep =
          treeLoop true true tfId n rest st rDep lDep) ∧
    flatLoop true true tfId 100 [Fetch.row badRow, Fetch.row goodRow] 0 emptyFlatDisplay =
      ⟨FlatRes.raised, [Fetch.row goodRow], 1, emptyFlatDisplay⟩ :=
  ⟨fun _ _ _ _ _ => rfl, rfl⟩

/-- Claim C6 (code bug): a dequeued sentinel request (`query is None`) does
call `disconnect()`, but then execution falls through to
`self._cursor.execute(*query)`, whose argument unpacking of `None` raises an
uncaught `TypeError`: the worker loop dies through the `finally` teardown
and the next queued request is never executed.  Concretely, with a sentinel
followed by a real query, the full trace is the first connection, the
disconnect notification, and the teardown — with zero `execute` calls for
job 1. -/
theorem sentinel_kills_worker :
    runWorker 20 okOracle [⟨none, false⟩, ⟨some ("SELECT 1"), false⟩] =
      [Event.idleAdd Msg.connecting, Event.idleAdd Msg.connected, Event.closeHandle,
       Event.idleAdd Msg.connectionDropped, Event.closeCursor, Event.closeHandle,
       Event.idleAdd Msg.disconnected] ∧
    occ (Event.execQuery 1)
      (runWorker 20 okOracle [⟨none, false⟩, ⟨some ("SELECT 1"), false⟩]) = 0 ∧
    succCalls (runWorker 20 okOracle [⟨none, false⟩, ⟨some ("SELECT 1"), false⟩]) = 0 := by
  refine ⟨by decide, by decide, by decide⟩

/-- Claim C2, counterexample: on a request whose first execution succeeds,
the worker invokes the `onSuccess` handler by a direct call on its own
thread (`handler(self, self.request, self._cursor, notify, rows)`), not on
the consumer's context. -/
theorem handler_called_on_worker_counterexample :
    Event.callHandler 0 7 ∈ runWorker 20 okOracle [⟨some ("SHOW tables"), false⟩] ∧
    Event.ctx (Event.callHandler 0 7) ≠ Ctx.consumer :=
  ⟨by decide, by decide⟩

/-- Claim C2 (amended): in every worker trace, `onSuccess` and `onFailure`
invocations are synchronous calls on the worker's own thread, while every
`notify` message is marshalled to the consumer's context via
`glib.idle_add`. -/
theorem handlers_run_on_worker_thread (K : Nat) (oracle : Nat → Attempt) (jobs : List Job) :
    ∀ e, e ∈ runWorker K oracle jobs →
      (isHandlerCall e = true → Event.ctx e = Ctx.worker) ∧
      (isIdleAdd e = true → Event.ctx e = Ctx.consumer) := by
  intro e _
  cases e <;> simp [isHandlerCall, isIdleAdd, Event.ctx]

/-- Witness for `handlers_run_on_worker_thread` at a concrete trace and
event. -/
theorem handlers_run_on_worker_thread_witness :
    Event.ctx (Event.callHandler 0 7) = Ctx.worker :=
  (handlers_run_on_worker_thread 20 okOracle [⟨some ("SHOW tables"), false⟩]
      (Event.callHandler 0 7) (by decide)).1 (by decide)

/-- Claim C5: for every queue content and every `n` (with the semaphore
count equal to the queue length, the invariant maintained by
`request`/`run`), `purge_job_queue` keeps exactly `min n original_length`
requests — the newest ones, still in FIFO order (the queue's final
suffix) — and consumes one wake-signal per discarded item, leaving the
signal count equal to the remaining queue length. -/
theorem purge_keeps_newest (jobs : List Job) (sem n : Nat) (hs : sem = jobs.length) :
    (purge_job_queue jobs sem n).1 = jobs.drop (jobs.length - n) ∧
    (purge_job_queue jobs sem n).1.length = min n jobs.length ∧
    (purge_job_queue jobs sem n).2 = sem - (jobs.length - min n jobs.length) ∧
    (purge_job_queue jobs sem n).2 = (purge_job_queue jobs sem n).1.length := by
  induction jobs generalizing sem with
  | nil => subst hs; simp [purge_job_queue]
  | cons j rest ih =>
    subst hs
    simp only [purge_job_queue, List.length_cons]
    by_cases h : rest.length + 1 > n
    · rw [if_pos h]
      have h1 : rest.length + 1 - 1 = rest.length := by omega
      rw [h1]
      obtain ⟨i1, i2, i3, i4⟩ := ih rest.length rfl
      refine ⟨?_, ?_, ?_, ?_⟩
      · rw [i1, show rest.length + 1 - n = (rest.length - n) + 1 by omega, List.drop_succ_cons]
      · rw [i2]; omega
      · rw [i3]; omega
      · exact i4
    · rw [if_neg h]
      have h0 : rest.length + 1 - n = 0 := by omega
      have hm : min n (rest.length + 1) = rest.length + 1 := by omega
      simp [h0, hm]

/-- Witness for `purge_keeps_newest`: a three-job queue purged down to the
newest one. -/
theorem purge_keeps_newest_witness :
    (purge_job_queue [⟨some ("a"), false⟩, ⟨some ("b"), false⟩, ⟨some ("c"), false⟩] 3 1).1 =
        [⟨some ("c"), false⟩] ∧
    (purge_job_queue [⟨some ("a"), false⟩, ⟨some ("b"), false⟩, ⟨some ("c"), false⟩] 3 1).2 = 1 := by
  have h := purge_keeps_newest
      [⟨some ("a"), false⟩, ⟨some ("b"), false⟩, ⟨some ("c"), false⟩] 3 1 (by decide)
  exact ⟨by rw [h.1]; decide, by rw [h.2.2.2, h.2.1]; decide⟩

theorem rsplitOnce_eq_none (sep : Char) (cs : List Char) (h : sep ∉ cs) :
    rsplitOnce sep cs = none := by
  induction cs with
  | nil => rfl
  | cons c cs ih =>
    simp only [List.mem_cons, not_or] at h
    have hc : ¬ c = sep := fun e => h.1 e.symm
    simp [rsplitOnce, ih h.2, hc]

theorem rsplitOnce_last (sep : Char) (pre post : List Char) (h : sep ∉ post) :
    rsplitOnce sep (pre ++ sep :: post) = some (pre, post) := by
  induction pre with
  | nil => simp [rsplitOnce, rsplitOnce_eq_none sep post h]
  | cons c pre ih => simp [rsplitOnce, ih]

/-- Claim C10: the constructor splits `hostnameport` at the last `:` into
hostname and `int(port)`; when there is no `:` at all, or when the text
after the last `:` does not parse as a Python integer, the whole string is
the hostname and the port defaults to 3306. -/
theorem hostport_parse_spec (s pre post : List Char) :
    ((':' ∉ s) → hostPortOfChars s = (s, 3306)) ∧
    (s = pre ++ ':' :: post → (':' ∉ post) →
      hostPortOfChars s =
        (match pythonInt post with
         | some p => (pre, p)
         | none => (s, 3306))) := by
  constructor
  · intro h
    simp [hostPortOfChars, rsplitOnce_eq_none ':' s h]
  · intro hs hp
    subst hs
    simp only [hostPortOfChars, rsplitOnce_last ':' pre post hp]

/-- Witness for `hostport_parse_spec`: `"h:8"` parses as host `"h"`, port
`8`; `"ab"` (no colon) parses as host `"ab"`, port 3306. -/
theorem hostport_parse_spec_witness :
    hostPortOfChars ['h', ':', '8'] = (['h'], (8 : Int)) ∧
    hostPortOfChars ['a', 'b'] = (['a', 'b'], 3306) := by
  constructor
  · have h := (hostport_parse_spec ['h', ':', '8'] ['h'] ['8']).2 (by decide) (by decide)
    have h8 : pythonInt ['8'] = some 8 := by decide
    rw [h8] at h
    exact h
  · exact (hostport_parse_spec ['a', 'b'] [] []).1 (by decide)

/-- One failed attempt with an `OperationalError` (connection error), while
`keepalive` stays true: the execute call, the defensive closes, the
"Connecting" notification and the reconnection events, then the loop
continues with one less attempt, the attempt oracle advanced by one, and
two more `keepalive` reads consumed. -/
theorem attemptLoop_operr (K : Nat) (oracle : Nat → Attempt) (i : Nat) (q : String) (fh : Bool)
    (n t a : Nat) (hK : t + 2 ≤ K) (hex : (oracle a).exec = ExecResult.operr) :
    attemptLoop K oracle i ⟨some q, fh⟩ (n + 1) ⟨t, a, true⟩ =
      ([Event.execQuery i, Event.closeCursor, Event.closeHandle, Event.idleAdd Msg.connecting]
          ++ connEvents (oracle a).conn (3 - n)
          ++ (attemptLoop K oracle i ⟨some q, fh⟩ n ⟨t + 2, a + 1, true⟩).1,
       (attemptLoop K oracle i ⟨some q, fh⟩ n ⟨t + 2, a + 1, true⟩).2.1,
       (attemptLoop K oracle i ⟨some q, fh⟩ n ⟨t + 2, a + 1, true⟩).2.2) := by
  have h1 : t < K := by omega
  have h2 : t + 1 < K := by omega
  simp [attemptLoop, tryBody, errSetup, hex, h1, h2]

/-- A request whose three execute attempts all fail with a connection error:
the full per-request trace, ending in the retry loop's `else` clause, with a
`normal` exit (the worker moves on). -/
theorem processJob_three_operr (K : Nat) (oracle : Nat → Attempt) (i : Nat) (q : String)
    (fh : Bool) (t a : Nat) (hK : t + 6 ≤ K)
    (h0 : (oracle a).exec = ExecResult.operr)
    (h1 : (oracle (a + 1)).exec = ExecResult.operr)
    (h2 : (oracle (a + 1 + 1)).exec = ExecResult.operr) :
    processJob K oracle i ⟨some q, fh⟩ ⟨t, a, true⟩ =
      ([Event.execQuery i, Event.closeCursor, Event.closeHandle, Event.idleAdd Msg.connecting]
         ++ connEvents (oracle a).conn 1
         ++ ([Event.execQuery i, Event.closeCursor, Event.closeHandle, Event.idleAdd Msg.connecting]
             ++ connEvents (oracle (a + 1)).conn 2
             ++ ([Event.execQuery i, Event.closeCursor, Event.closeHandle,
                  Event.idleAdd Msg.connecting]
                 ++ connEvents (oracle (a + 1 + 1)).conn 3
                 ++ (if fh then [Event.callFailhandler i] else [Event.idleAdd Msg.jobDropped]))),
       JobExit.normal, ⟨t + 2 + 2 + 2, a + 1 + 1 + 1, true⟩) := by
  have e3 := attemptLoop_operr K oracle i q fh 2 t a (by omega) h0
  have e2 := attemptLoop_operr K oracle i q fh 1 (t + 2) (a + 1) (by omega) h1
  have e1 := attemptLoop_operr K oracle i q fh 0 (t + 2 + 2) (a + 1 + 1) (by omega) h2
  norm_num at e3 e2 e1
  simp only [processJob]
  rw [e3, e2, e1]
  simp [attemptLoop]

/-- Claim C1: a dequeued request whose every execute attempt fails with a
connection error is retried exactly 3 times (the retry counter starts at
zero for each request — the theorem holds from every prior worker state),
after which `onFailure` is invoked exactly once when supplied and otherwise
exactly one "Job dropped" notification is emitted, `onSuccess` is never
invoked, and the loop then continues with the remaining queued requests. -/
theorem worker_retry_budget (K : Nat) (oracle : Nat → Attempt) (i : Nat) (q : String)
    (fh : Bool) (rest : List Job) (s : WState)
    (hconn : s.everConnected = true) (hK : s.tick + 8 ≤ K)
    (h0 : (oracle s.att).exec = ExecResult.operr)
    (h1 : (oracle (s.att + 1)).exec = ExecResult.operr)
    (h2 : (oracle (s.att + 2)).exec = ExecResult.operr) :
    ∃ t s2,
      runLoop K oracle (⟨some q, fh⟩ :: rest) i s =
        (t ++ (runLoop K oracle rest (i + 1) s2).1, (runLoop K oracle rest (i + 1) s2).2) ∧
      occ (Event.execQuery i) t = 3 ∧
      occ (Event.callFailhandler i) t = (if fh then 1 else 0) ∧
      occ (Event.idleAdd Msg.jobDropped) t = (if fh then 0 else 1) ∧
      succCalls t = 0 := by
  obtain ⟨t0, a0, ec⟩ := s
  obtain rfl : ec = true := hconn
  have hK2 : t0 + 8 ≤ K := hK
  have h02 : (oracle a0).exec = ExecResult.operr := h0
  have h12 : (oracle (a0 + 1)).exec = ExecResult.operr := h1
  have h22 : (oracle (a0 + 1 + 1)).exec = ExecResult.operr := h2
  have hpj := processJob_three_operr K oracle i q fh (t0 + 2) a0 (by omega) h02 h12 h22
  have c1 : t0 < K := by omega
  have c2 : t0 + 1 < K := by omega
  refine ⟨(processJob K oracle i ⟨some q, fh⟩ ⟨t0 + 2, a0, true⟩).1,
          (processJob K oracle i ⟨some q, fh⟩ ⟨t0 + 2, a0, true⟩).2.2, ?_, ?_, ?_, ?_, ?_⟩
  · simp only [runLoop]
    simp [c1, c2, hpj]
  · rw [hpj]
    cases fh <;> simp [occ_append, occ, connEvents_occ_exec]
  · rw [hpj]
    cases fh <;> simp [occ_append, occ, connEvents_occ_failcb]
  · rw [hpj]
    cases fh <;> simp [occ_append, occ, connEvents_occ_dropped]
  · rw [hpj]
    cases fh <;> simp [succCalls_append, succCalls, connEvents_succCalls]

/-- Witness for `worker_retry_budget`: the all-failures environment
`opOracle`, one queued request with no failhandler, from a fresh connected
state. -/
theorem worker_retry_budget_witness :
    ∃ t s2,
      runLoop 20 opOracle [⟨some ("q0"), false⟩] 0 ⟨0, 0, true⟩ =
        (t ++ (runLoop 20 opOracle [] 1 s2).1, (runLoop 20 opOracle [] 1 s2).2) ∧
      occ (Event.execQuery 0) t = 3 ∧
      occ (Event.callFailhandler 0) t = (if false then 1 else 0) ∧
      occ (Event.idleAdd Msg.jobDropped) t = (if false then 0 else 1) ∧
      succCalls t = 0 :=
  worker_retry_budget 20 opOracle 0 ("q0") false [] ⟨0, 0, true⟩ rfl (by decide) rfl rfl rfl

/-- A row that the flat builder can append always yields `some`, with the
assigned found index. -/
theorem flatRowOf_isSome (amp : Bool) (tf : String → String) (idx : Nat) (r : Row)
    (h : amp = true → (splitPathFile r.field6).isSome = true) :
    ∃ fr, flatRowOf amp tf idx r = some fr ∧ fr.found = idx := by
  cases amp with
  | false =>
    exact ⟨⟨idx, r.artist, r.album, r.tracknumber, r.title, r.length, r.bitrate,
            r.field6, tf r.field7, r.disk⟩, rfl, rfl⟩
  | true =>
    rcases hsp : splitPathFile r.field6 with _ | ⟨p, fn⟩
    · have h2 := h rfl
      rw [hsp] at h2
      simp at h2
    · exact ⟨⟨idx, r.artist, r.album, r.tracknumber, r.title, r.length, r.bitrate,
              fn, tf p, r.disk⟩, by simp [flatRowOf, hsp], rfl⟩

theorem flatRowsOf_append (amp : Bool) (tf : String → String) (xs ys : List Row) :
    ∀ f : Nat, (∀ r ∈ xs, amp = true → (splitPathFile r.field6).isSome = true) →
      flatRowsOf amp tf f (xs ++ ys) =
        flatRowsOf amp tf f xs ++ flatRowsOf amp tf (f + xs.length) ys := by
  induction xs with
  | nil => intro f _; simp [flatRowsOf]
  | cons x xs ih =>
    intro f hs
    obtain ⟨fr, hfr, _⟩ := flatRowOf_isSome amp tf (f + 1) x (hs x (by simp))
    have harg : f + (xs.length + 1) = f + 1 + xs.length := by omega
    simp [flatRowsOf, hfr, harg, ih (f + 1) (fun r hr => hs r (by simp [hr]))]

theorem flatRowsOf_found (amp : Bool) (tf : String → String) :
    ∀ (rows : List Row) (f : Nat),
      (∀ r ∈ rows, amp = true → (splitPathFile r.field6).isSome = true) →
      (flatRowsOf amp tf f rows).map FlatRow.found = List.range' (f + 1) rows.length := by
  intro rows
  induction rows with
  | nil => intro f _; simp [flatRowsOf]
  | cons r rs ih =>
    intro f hs
    obtain ⟨fr, hfr, hfound⟩ := flatRowOf_isSome amp tf (f + 1) r (hs r (by simp))
    simp [flatRowsOf, hfr, List.range'_succ, hfound,
      ih (f + 1) (fun r2 hr => hs r2 (by simp [hr]))]

/-- Behaviour of one `FlatPage._update_2` row loop over a live cursor whose
rows are all appendable: with fuel to spare it reaches exhaustion (and
installs the projection exactly when the accumulated found count is
nonzero); otherwise it consumes exactly `n` rows and asks to be
rescheduled. -/
theorem flatLoop_good (amp : Bool) (tf : String → String) :
    ∀ (n : Nat) (rows : List Row) (found : Nat) (d : FlatDisplay),
      (∀ r ∈ rows, amp = true → (splitPathFile r.field6).isSome = true) →
      flatLoop true amp tf n (rows.map Fetch.row) found d =
        (if rows.length < n then
          ⟨FlatRes.halt, [], found + rows.length,
            if found + rows.length = 0 then d
            else ⟨d.store ++ flatRowsOf amp tf found rows, true, foundTitle (found + rows.length)⟩⟩
        else
          ⟨FlatRes.again, (rows.drop n).map Fetch.row, found + n,
            ⟨d.store ++ flatRowsOf amp tf found (rows.take n), d.attached, d.title⟩⟩) := by
  intro n
  induction n with
  | zero =>
    intro rows found d _
    simp [flatLoop, flatRowsOf]
  | succ n ih =>
    intro rows found d hs
    cases rows with
    | nil =>
      by_cases hf : found = 0 <;> simp [flatLoop, flatRowsOf, hf]
    | cons r rs =>
      obtain ⟨fr, hfr, _⟩ := flatRowOf_isSome amp tf (found + 1) r (hs r (by simp))
      have ih2 := ih rs (found + 1) ⟨d.store ++ [fr], d.attached, d.title⟩
          (fun r2 hr => hs r2 (by simp [hr]))
      by_cases hlen : rs.length < n
      · have hnz : ¬ (found + (rs.length + 1) = 0) := by omega
        have hnz2 : ¬ (found + 1 + rs.length = 0) := by omega
        have hnum : found + 1 + rs.length = found + (rs.length + 1) := by omega
        simp [flatLoop, hfr, ih2, hlen, hnz, hnz2, hnum, flatRowsOf]
      · have hnum : found + 1 + n = found + (n + 1) := by omega
        simp [flatLoop, hfr, ih2, hlen, hnum, flatRowsOf]

/-- The slice chain over a live, fully appendable cursor: with enough fuel
(`rows.length < fuel` suffices, each rescheduled slice consuming 100 rows)
the final display is unchanged when nothing was ever found and otherwise
carries the appended projection, an attached model, and the found-count
title. -/
theorem flatDrive_good (amp : Bool) (tf : String → String) :
    ∀ (fuel : Nat) (rows : List Row) (found : Nat) (d : FlatDisplay),
      rows.length < fuel →
      (∀ r ∈ rows, amp = true → (splitPathFile r.field6).isSome = true) →
      flatDrive true amp tf fuel (rows.map Fetch.row) found d =
        (if found + rows.length = 0 then d
         else ⟨d.store ++ flatRowsOf amp tf found rows, true, foundTitle (found + rows.length)⟩) := by
  intro fuel
  induction fuel with
  | zero => intro rows found d h; omega
  | succ fuel ih =>
    intro rows found d hlen hs
    simp only [flatDrive, flatUpdate2]
    rw [if_neg (by simp : ¬ (false = true)), flatLoop_good amp tf 100 rows found d hs]
    by_cases hc : rows.length < 100
    · rw [if_pos hc]
    · rw [if_neg hc]
      have hs2 : ∀ r ∈ rows.drop 100, amp = true → (splitPathFile r.field6).isSome = true :=
        fun r hr => hs r (List.drop_subset 100 rows hr)
      have hlen2 : (rows.drop 100).length < fuel := by
        simp only [List.length_drop]; omega
      dsimp only
      rw [ih (rows.drop 100) (found + 100) ⟨d.store ++ flatRowsOf amp tf found (rows.take 100),
            d.attached, d.title⟩ hlen2 hs2]
      have hnz : ¬ (found + 100 + (rows.drop 100).length = 0) := by
        simp only [List.length_drop]; omega
      have hnz2 : ¬ (found + rows.length = 0) := by omega
      rw [if_neg hnz, if_neg hnz2]
      have hsplit : flatRowsOf amp tf found rows =
          flatRowsOf amp tf found (rows.take 100) ++
            flatRowsOf amp tf (found + 100) (rows.drop 100) := by
        have h1 := flatRowsOf_append amp tf (rows.take 100) (rows.drop 100) found
          (fun r hr => hs r (List.take_subset 100 rows hr))
        rw [List.take_append_drop] at h1
        rw [h1, List.length_take, show min 100 rows.length = 100 by omega]
      have hnum2 : found + 100 + (rows.length - 100) = found + rows.length := by omega
      have hnum : found + 100 + (rows.drop 100).length = found + rows.length := by
        simp only [List.length_drop]; omega
      simp [hsplit, hnum, hnum2]

/-- One full flat run over `rows` (all appendable): zero rows leave the
cleared, detached display from `_update_1`; at least one row installs the
built projection with found indices `1..count` and the count title. -/
theorem flatRun_characterization (amp : Bool) (tf : String → String) (rows : List Row)
    (d : FlatDisplay)
    (hs : ∀ r ∈ rows, amp = true → (splitPathFile r.field6).isSome = true) :
    flatRun amp tf (rows.map Fetch.row) d =
      (if rows.length = 0 then (⟨[], false, d.title⟩ : FlatDisplay)
       else ⟨flatRowsOf amp tf 0 rows, true, foundTitle rows.length⟩) := by
  simp only [flatRun, flatUpdate1]
  rw [if_neg (by simp : ¬ (false = true))]
  have h := flatDrive_good amp tf (List.length (rows.map Fetch.row) + 1) rows 0
      ⟨[], false, d.title⟩ (by simp) hs
  rw [h]
  by_cases hz : rows.length = 0 <;> simp [hz]

/-- Claim C4, counterexample: a flat-builder run over an exhausted (0-row)
cursor does NOT leave the previous display state untouched: `_update_1` has
already cleared the list store and detached the view's model before the
first `_update_2` slice runs, so the one-row previous display is replaced by
an empty, detached one (only the stale title survives). -/
theorem flat_zero_rows_clears_previous_display :
    flatRun false tfId [] prevFlatDisplay ≠ prevFlatDisplay ∧
    flatRun false tfId [] prevFlatDisplay = ⟨[], false, foundTitle 1⟩ :=
  ⟨by decide, by decide⟩

/-- Claim C4 (amended): when the flat builder's cursor is exhausted, if at
least one row was found the flat projection becomes the new display source
(the model is attached) with found indices exactly `1..count` in insertion
order and the count reported in the column title; if zero rows were found
nothing is reported — no model is installed and the title keeps its old
value — but the display does not retain the previous rows: `_update_1` has
already cleared the store and detached the model at the start of the run. -/
theorem flat_exhaustion_amended (amp : Bool) (tf : String → String) (rows : List Row)
    (d : FlatDisplay)
    (hs : ∀ r ∈ rows, amp = true → (splitPathFile r.field6).isSome = true) :
    (rows ≠ [] →
      flatRun amp tf (rows.map Fetch.row) d =
          ⟨flatRowsOf amp tf 0 rows, true, foundTitle rows.length⟩ ∧
      (flatRowsOf amp tf 0 rows).map FlatRow.found = List.range' 1 rows.length) ∧
    (rows = [] → flatRun amp tf (rows.map Fetch.row) d = ⟨[], false, d.title⟩) := by
  constructor
  · intro hne
    have hz : ¬ rows.length = 0 := by simpa using hne
    refine ⟨?_, ?_⟩
    · rw [flatRun_characterization amp tf rows d hs, if_neg hz]
    · simpa using flatRowsOf_found amp tf rows 0 hs
  · intro he
    subst he
    rw [flatRun_characterization amp tf [] d (by simp)]
    simp

/-- Witness for `flat_exhaustion_amended`: a one-row Prokyon cursor over the
previous display installs the one-row projection with title `"(1)"`. -/
theorem flat_exhaustion_amended_witness :
    flatRun false tfId ([goodRow].map Fetch.row) prevFlatDisplay =
      ⟨flatRowsOf false tfId 0 [goodRow], true, foundTitle 1⟩ := by
  have h := (flat_exhaustion_amended false tfId [goodRow] prevFlatDisplay
      (fun r _ hab => by cases hab)).1 (by decide)
  exact h.1


